import Mathlib

/-!
Verification of the mycampusbackend token-lifecycle, account-rotation and
material-processing subsystem, shallowly embedded from `src/index.js` and
`src/lib/dropbox.js`.  External collaborators (the Supabase store, the
Dropbox provider, the network) are modelled as oracles: each call site's
outcome is a parameter, and the side effects issued by the code (store
updates, provider calls) are collected in an explicit trace.
-/

deriving instance DecidableEq for Except

namespace Campus

/-- JS truthiness for an optional string field: `null`/absent and the empty
string are falsy, every other string is truthy. -/
def truthy : Option String → Bool
  | none => false
  | some s => !(s == "")

/-- JS `a || b` null-coalescing on optional string config values
(account-level value takes precedence when truthy). -/
def jsOr (a b : Option String) : Option String :=
  if truthy a then a else b

/-- `pat` is a prefix of `s` (on character lists). -/
def charsPrefix : List Char → List Char → Bool
  | [], _ => true
  | _ :: _, [] => false
  | p :: ps, c :: cs => p == c && charsPrefix ps cs

/-- Replace the first occurrence of `pat` in the character list by `repl`. -/
def replaceFirstChars (pat repl : List Char) : List Char → List Char
  | [] => []
  | c :: cs =>
    if charsPrefix pat (c :: cs) then repl ++ (c :: cs).drop pat.length
    else c :: replaceFirstChars pat repl cs

/-- JS `String.prototype.replace` with a string pattern: replaces only the
first occurrence of `pat` in `s` by `repl`. -/
def replaceFirst (s pat repl : String) : String :=
  ⟨replaceFirstChars pat.data repl.data s.data⟩

/-- A row of the `dropbox_accounts` table. -/
structure AccountRow where
  id : Nat
  access_token : Option String
  refresh_token : Option String
  app_key : Option String
  app_secret : Option String
  bytes_used : Nat
  last_used : Nat
deriving Repr, DecidableEq

/-- A store write issued against `dropbox_accounts`. -/
inductive StoreUpdate where
  /-- `update({ last_used }).eq('id', accId)` (fast path). -/
  | lastUsed (accId : Nat) (t : Nat)
  /-- `update({ access_token, last_used }).eq('id', accId)` (refresh path). -/
  | tokenAndLastUsed (accId : Nat) (tok : String) (t : Nat)
deriving Repr, DecidableEq

/-- Effect trace of one `ensureAccessToken` invocation: how many OAuth
refresh calls were made and which account-table writes were issued. -/
structure Trace where
  refreshCalls : Nat
  updates : List StoreUpdate
deriving Repr, DecidableEq

/-- Oracle environment for `ensureAccessToken`: process-wide config,
provider-call outcomes and the outcome of the refreshed-token store write. -/
structure Env where
  /-- `process.env.DROPBOX_CLIENT_ID` -/
  envClientId : Option String
  /-- `process.env.DROPBOX_CLIENT_SECRET` -/
  envClientSecret : Option String
  /-- outcome of `dbx.usersGetCurrentAccount()` for a given access token -/
  provider : String → Except String Unit
  /-- raw outcome of the OAuth token exchange for
  (refresh_token, client_id, client_secret) -/
  refreshOutcome : String → String → String → Except String String
  /-- error, if any, of the store write persisting the refreshed token -/
  updateTokenError : Option String
  /-- value of `new Date()` for `last_used` writes -/
  now : Nat

/-- `testDropboxToken` from `src/index.js`: liveness-check a token, never
throwing — any provider error degrades to `false`. -/
def testDropboxToken (provider : String → Except String Unit) (accessToken : String) : Bool :=
  match provider accessToken with
  | .ok _ => true
  | .error _ => false

/-- `refreshDropboxAccessToken` from `src/index.js`: the OAuth exchange,
wrapping any failure in a descriptive error. -/
def refreshDropboxAccessToken (outcome : Except String String) : Except String String :=
  match outcome with
  | .ok tok => .ok tok
  | .error d => .error ("Failed to refresh Dropbox token: " ++ d)

/-- Return value of `ensureAccessToken`: the (possibly updated) account row
and the usable access token. -/
structure EnsureResult where
  accountRow : AccountRow
  accessToken : String
deriving Repr, DecidableEq

/-- `ensureAccessToken` from `src/index.js`, with its effect trace.
Fast path: present + live token → update `last_used`, return unchanged.
Otherwise require a refresh token and resolved client credentials
(account-level `app_key`/`app_secret` take precedence over the env
defaults), perform one refresh, persist the new token, and throw if the
persist write errors. -/
def ensureAccessToken (env : Env) (accountRow : AccountRow) :
    Except String EnsureResult × Trace :=
  let accessToken := accountRow.access_token
  let refreshToken := accountRow.refresh_token
  let clientId := jsOr accountRow.app_key env.envClientId
  let clientSecret := jsOr accountRow.app_secret env.envClientSecret
  if truthy accessToken && testDropboxToken env.provider (accessToken.getD "") then
    (.ok ⟨accountRow, accessToken.getD ""⟩,
     ⟨0, [StoreUpdate.lastUsed accountRow.id env.now]⟩)
  else if !truthy refreshToken then
    (.error ("Dropbox access token invalid and no refresh token for account id="
        ++ toString accountRow.id), ⟨0, []⟩)
  else if !truthy clientId || !truthy clientSecret then
    (.error "Missing Dropbox client credentials for token refresh", ⟨0, []⟩)
  else
    match refreshDropboxAccessToken
        (env.refreshOutcome (refreshToken.getD "") (clientId.getD "") (clientSecret.getD "")) with
    | .error e => (.error e, ⟨1, []⟩)
    | .ok newAccessToken =>
      match env.updateTokenError with
      | some e =>
        (.error ("Failed to update refreshed access token in DB: " ++ e),
         ⟨1, [StoreUpdate.tokenAndLastUsed accountRow.id newAccessToken env.now]⟩)
      | none =>
        (.ok ⟨{ accountRow with access_token := some newAccessToken }, newAccessToken⟩,
         ⟨1, [StoreUpdate.tokenAndLastUsed accountRow.id newAccessToken env.now]⟩)

/-- Stable insertion (ascending `last_used`) used to model the store's
`order('last_used', { ascending: true })`. -/
def insertByLastUsed (a : AccountRow) : List AccountRow → List AccountRow
  | [] => [a]
  | b :: rest =>
    if a.last_used ≤ b.last_used then a :: b :: rest
    else b :: insertByLastUsed a rest

/-- Stable sort of account rows by ascending `last_used`. -/
def sortByLastUsed : List AccountRow → List AccountRow
  | [] => []
  | a :: rest => insertByLastUsed a (sortByLastUsed rest)

/-- `selectDropboxAccount` from `src/index.js`: read all accounts, filter to
`bytes_used < maxBytesMB` when a positive quota ceiling is configured, order
by `last_used` ascending, take the first row; throw when none remains.
Read-only: issues no store writes. -/
def selectDropboxAccount (maxBytesMB : Nat) (rows : List AccountRow) :
    Except String AccountRow :=
  let filtered := if maxBytesMB > 0 then rows.filter (fun r => r.bytes_used < maxBytesMB) else rows
  match sortByLastUsed filtered with
  | [] => .error "No suitable Dropbox account found"
  | a :: _ => .ok a

/-- URL normalization in `createSharedLinkDirect` (`src/lib/dropbox.js`):
`url.replace("www.dropbox.com", "dl.dropboxusercontent.com").replace("?dl=0", "")`. -/
def normalizeDirect (url : String) : String :=
  replaceFirst (replaceFirst url "www.dropbox.com" "dl.dropboxusercontent.com") "?dl=0" ""

/-- `createSharedLinkDirect` from `src/lib/dropbox.js`: try the create-link
call; on any error fall back to listing the path's shared links and taking
the first (`links[0].url` — a TypeError when the list is empty); normalize
either URL to direct-download form. `create` is the create-call outcome,
`listLinks` the list-call outcome. -/
def createSharedLinkDirect (create : Except String String)
    (listLinks : Except String (List String)) : Except String String :=
  match create with
  | .ok url => .ok (normalizeDirect url)
  | .error _ =>
    match listLinks with
    | .error e => .error e
    | .ok links =>
      match links with
      | [] => .error "TypeError: Cannot read properties of undefined (reading url)"
      | url :: _ => .ok (normalizeDirect url)

/-- A row of the `study_materials` table (the processing job). -/
structure Material where
  id : String
  storage_path : String
  attempts : Nat
  processing_status : String
  processing_error : Option String
  processed_url : Option String
  file_url : Option String
  approval_status : String
deriving Repr, DecidableEq

/-- A row inserted into `file_records` after a successful upload. -/
structure FileRecord where
  material_id : String
  dropbox_path : String
  dropbox_url : String
  uploaded_at : Nat
deriving Repr, DecidableEq

/-- `getDropboxTokenFromDB` from `src/index.js`: select the least-recently
used eligible account, then ensure it has a usable access token. Returns
the token together with the selected account's id, plus the effect trace of
`ensureAccessToken`. -/
def getDropboxTokenFromDB (maxBytesMB : Nat) (rows : List AccountRow) (env : Env) :
    Except String (String × Nat) × Trace :=
  match selectDropboxAccount maxBytesMB rows with
  | .error e => (.error e, ⟨0, []⟩)
  | .ok account =>
    match ensureAccessToken env account with
    | (.error e, tr) => (.error e, tr)
    | (.ok r, tr) => (.ok (r.accessToken, account.id), tr)

/-- Oracle environment for the `POST /process-material/:id` handler. `env1`
feeds the initial `ensureAccessToken` call (via `getDropboxTokenFromDB`),
`env2` the one inside the upload-retry branch; `upload n tok path` is the
outcome of the n-th `filesUpload` call (0 = first attempt, 1 = retry). -/
structure ProcEnv where
  maxBytesMB : Nat
  accounts : List AccountRow
  env1 : Env
  env2 : Env
  /-- outcome of `downloadFromSupabase storage_path` (byte count on success) -/
  download : String → Except String Nat
  upload : Nat → String → String → Except String String
  /-- the `.single()` re-fetch of the account row inside the retry branch -/
  fetchAccountById : Nat → Option AccountRow
  /-- outcome of `sharingCreateSharedLinkWithSettings` (token, path_lower) -/
  sharedLink : String → String → Except String String
  /-- value of `Date.now()` used to build the Dropbox path -/
  nowTs : Nat

/-- Observable outcome of one `POST /process-material/:id` request: the HTTP
status and error body, the final `study_materials` row, and the trace of
every externally visible effect the handler issued. -/
structure ProcResult where
  status : Nat
  errMsg : Option String
  job : Option Material
  fileRecords : List FileRecord
  removedBlobs : List String
  uploadCalls : List (String × String)
  sharedLinkCalls : List (String × String)
  accountFetches : List Nat
  refreshCalls : Nat
  downloadCalls : List String
  bytesIncrements : List (Nat × Nat)
  /-- values written to the `attempts` column, in order -/
  attemptsWrites : List Nat
deriving Repr, DecidableEq

/-- The catch-block write: `{ processing_status: 'failed', processing_error: e }`. -/
def jobFailed (m : Material) (e : String) : Material :=
  { m with processing_status := "failed", processing_error := some e }

/-- The characters after the last `'/'` (the whole list when there is none):
`storage_path.split('/').pop()` on character lists. -/
def lastSegChars (cur : List Char) : List Char → List Char
  | [] => cur.reverse
  | c :: cs => if c == '/' then lastSegChars [] cs else lastSegChars (c :: cur) cs

/-- The Dropbox target path built by the handler:
`/campus-files/${Date.now()}_${storage_path.split('/').pop()}`. -/
def dropboxPathFor (nowTs : Nat) (storagePath : String) : String :=
  "/campus-files/" ++ toString nowTs ++ "_" ++ (⟨lastSegChars [] storagePath.data⟩ : String)

/-- Steps 7️⃣b–9️⃣ of the handler, after a successful `filesUpload`: create the
shared link with the ORIGINAL `dbx` client token, rewrite `?dl=0`→`?dl=1`,
insert the `file_records` row, increment usage, mark the job done and remove
the source blob. -/
def afterUpload (penv : ProcEnv) (material m1 : Material) (dropboxToken : String)
    (accountId : Nat) (dropboxPath pathLower : String) (nbytes : Nat)
    (uploads : List (String × String)) (fetches : List Nat) (refreshes : Nat) :
    ProcResult :=
  match penv.sharedLink dropboxToken pathLower with
  | .error e =>
    { status := 500, errMsg := some e, job := some (jobFailed m1 e),
      fileRecords := [], removedBlobs := [], uploadCalls := uploads,
      sharedLinkCalls := [(dropboxToken, pathLower)], accountFetches := fetches,
      refreshCalls := refreshes, downloadCalls := [material.storage_path],
      bytesIncrements := [], attemptsWrites := [m1.attempts] }
  | .ok rawUrl =>
    let dropboxUrl := replaceFirst rawUrl "?dl=0" "?dl=1"
    { status := 200, errMsg := none,
      job := some ({ m1 with
                     processed_url := some dropboxUrl, file_url := some dropboxUrl,
                     processing_status := "done", approval_status := "approved" }),
      fileRecords := [⟨material.id, dropboxPath, dropboxUrl, penv.nowTs⟩],
      removedBlobs := [material.storage_path],
      uploadCalls := uploads, sharedLinkCalls := [(dropboxToken, pathLower)],
      accountFetches := fetches, refreshCalls := refreshes,
      downloadCalls := [material.storage_path],
      bytesIncrements := [(accountId, nbytes)], attemptsWrites := [m1.attempts] }

/-- The `POST /process-material/:id` handler from `src/index.js`, as a pure
function of the fetched material row (`none` = not found / fetch error) and
the oracle environment. Mirrors, in order: the not-found check, the
`attempts >= 3` rejection, the attempts-increment write, the storage
download, account selection + token ensuring, the upload with its single
refresh-and-retry fallback, shared-link creation, record insertion, usage
accounting, the done-update and blob removal; any thrown error lands in the
catch block that marks the job failed and answers 500. -/
def processMaterial (penv : ProcEnv) (material? : Option Material) : ProcResult :=
  match material? with
  | none =>
    { status := 404, errMsg := some "Material not found", job := none,
      fileRecords := [], removedBlobs := [], uploadCalls := [], sharedLinkCalls := [],
      accountFetches := [], refreshCalls := 0, downloadCalls := [],
      bytesIncrements := [], attemptsWrites := [] }
  | some material =>
    if material.attempts ≥ 3 then
      { status := 400, errMsg := some "Max retries reached",
        job := some ({ material with
                       processing_status := "failed",
                       processing_error := some "Max retries reached" }),
        fileRecords := [], removedBlobs := [], uploadCalls := [], sharedLinkCalls := [],
        accountFetches := [], refreshCalls := 0, downloadCalls := [],
        bytesIncrements := [], attemptsWrites := [] }
    else
      let m1 : Material :=
        { material with
          attempts := material.attempts + 1,
          processing_status := "processing", processing_error := none }
      match penv.download material.storage_path with
      | .error e =>
        { status := 500, errMsg := some e, job := some (jobFailed m1 e),
          fileRecords := [], removedBlobs := [], uploadCalls := [], sharedLinkCalls := [],
          accountFetches := [], refreshCalls := 0,
          downloadCalls := [material.storage_path], bytesIncrements := [],
          attemptsWrites := [m1.attempts] }
      | .ok nbytes =>
        match getDropboxTokenFromDB penv.maxBytesMB penv.accounts penv.env1 with
        | (.error e, tr1) =>
          { status := 500, errMsg := some e, job := some (jobFailed m1 e),
            fileRecords := [], removedBlobs := [], uploadCalls := [], sharedLinkCalls := [],
            accountFetches := [], refreshCalls := tr1.refreshCalls,
            downloadCalls := [material.storage_path], bytesIncrements := [],
            attemptsWrites := [m1.attempts] }
        | (.ok (dropboxToken, accountId), tr1) =>
          let dropboxPath := dropboxPathFor penv.nowTs material.storage_path
          match penv.upload 0 dropboxToken dropboxPath with
          | .ok pathLower =>
            afterUpload penv material m1 dropboxToken accountId dropboxPath pathLower
              nbytes [(dropboxToken, dropboxPath)] [] tr1.refreshCalls
          | .error err0 =>
            match penv.fetchAccountById accountId with
            | none =>
              { status := 500, errMsg := some err0, job := some (jobFailed m1 err0),
                fileRecords := [], removedBlobs := [],
                uploadCalls := [(dropboxToken, dropboxPath)], sharedLinkCalls := [],
                accountFetches := [accountId], refreshCalls := tr1.refreshCalls,
                downloadCalls := [material.storage_path], bytesIncrements := [],
                attemptsWrites := [m1.attempts] }
            | some row2 =>
              match ensureAccessToken penv.env2 row2 with
              | (.error e, tr2) =>
                { status := 500, errMsg := some e, job := some (jobFailed m1 e),
                  fileRecords := [], removedBlobs := [],
                  uploadCalls := [(dropboxToken, dropboxPath)], sharedLinkCalls := [],
                  accountFetches := [accountId],
                  refreshCalls := tr1.refreshCalls + tr2.refreshCalls,
                  downloadCalls := [material.storage_path], bytesIncrements := [],
                  attemptsWrites := [m1.attempts] }
              | (.ok r2, tr2) =>
                match penv.upload 1 r2.accessToken dropboxPath with
                | .error err1 =>
                  { status := 500, errMsg := some err1, job := some (jobFailed m1 err1),
                    fileRecords := [], removedBlobs := [],
                    uploadCalls := [(dropboxToken, dropboxPath), (r2.accessToken, dropboxPath)],
                    sharedLinkCalls := [], accountFetches := [accountId],
                    refreshCalls := tr1.refreshCalls + tr2.refreshCalls,
                    downloadCalls := [material.storage_path], bytesIncrements := [],
                    attemptsWrites := [m1.attempts] }
                | .ok pathLower =>
                  afterUpload penv material m1 dropboxToken accountId dropboxPath pathLower
                    nbytes [(dropboxToken, dropboxPath), (r2.accessToken, dropboxPath)]
                    [accountId] (tr1.refreshCalls + tr2.refreshCalls)

/-! Concrete sample oracles used to witness the theorems below on closed
inputs. -/

/-- A provider environment whose liveness check always succeeds. -/
def envLive : Env :=
  { envClientId := some "CID", envClientSecret := some "CSEC",
    provider := fun _ => .ok (), refreshOutcome := fun _ _ _ => .ok "NEWTOK",
    updateTokenError := none, now := 50 }

/-- A provider environment whose liveness check always fails (token expired)
and whose refresh succeeds with token `"NEWTOK2"`. -/
def envExpired : Env :=
  { envClientId := some "CID", envClientSecret := some "CSEC",
    provider := fun _ => .error "expired_access_token",
    refreshOutcome := fun _ _ _ => .ok "NEWTOK2",
    updateTokenError := none, now := 60 }

/-- A sample account row with a live token. -/
def acct1 : AccountRow := ⟨7, some "T1", some "R1", none, none, 0, 10⟩

/-- Oracle environment for a fully successful processing run. -/
def penvHappy : ProcEnv :=
  { maxBytesMB := 0, accounts := [acct1], env1 := envLive, env2 := envLive,
    download := fun _ => .ok 100,
    upload := fun _ _ _ => .ok "/campus-files/1000_x.pdf",
    fetchAccountById := fun _ => some acct1,
    sharedLink := fun _ _ => .ok "https://www.dropbox.com/s/a/x.pdf?dl=0",
    nowTs := 1000 }

/-- The spec's end-to-end sample job: id "abc", storage_path "materials/x.pdf",
attempts 0. -/
def matAbc : Material :=
  ⟨"abc", "materials/x.pdf", 0, "pending", none, none, none, "pending"⟩

/-- An account row whose stored access token fails the liveness check in
`envExpired`. -/
def acctExpired : AccountRow := ⟨8, some "OLD", some "R1", none, none, 0, 20⟩

/-- `envExpired` with a failing store write for the refreshed token. -/
def envPersistFail : Env := { envExpired with updateTokenError := some "boom" }

/-- `pat` occurs somewhere in the character list. -/
def hasSubstr (pat : List Char) : List Char → Bool
  | [] => charsPrefix pat []
  | c :: cs => charsPrefix pat (c :: cs) || hasSubstr pat cs

/-- `pat` occurs as a substring of `s`. -/
def containsSubstr (s pat : String) : Bool := hasSubstr pat.data s.data

/-- Oracle environment where the first upload attempt fails (`"E0"`), the
re-fetched account refreshes under `envExpired`, and the retried upload
also fails (`"E1"`). -/
def penvRetryFail : ProcEnv :=
  { maxBytesMB := 0, accounts := [acct1], env1 := envLive, env2 := envExpired,
    download := fun _ => .ok 100,
    upload := fun n _ _ => .error (if n == 0 then "E0" else "E1"),
    fetchAccountById := fun _ => some acctExpired,
    sharedLink := fun _ _ => .ok "unused",
    nowTs := 1000 }

/-- Like `penvRetryFail` but the retried upload succeeds. -/
def penvRetryOk : ProcEnv :=
  { penvRetryFail with
    upload := fun n _ _ => if n == 0 then .error "E0" else .ok "/campus-files/pl" }

/-- C10: the token validity check (`testDropboxToken`) is a total Boolean
function of the provider outcome — it returns `true` exactly when the
provider liveness call succeeds and `false` on any provider error, never
propagating the error to its caller. -/
theorem testDropboxToken_never_raises
    (provider : String → Except String Unit) (tok : String) :
    (testDropboxToken provider tok = true ↔ ∃ u, provider tok = .ok u) ∧
    (∀ e, provider tok = .error e → testDropboxToken provider tok = false) := by
  unfold testDropboxToken
  cases hp : provider tok with
  | ok u => simp
  | error e => simp

/-- Witness for C10 at a concrete erroring provider. -/
theorem testDropboxToken_never_raises_witness :
    testDropboxToken (fun _ => .error "network down") "T" = false :=
  (testDropboxToken_never_raises (fun _ => .error "network down") "T").2 "network down" rfl

/-- C4: for an account whose access credential is present (truthy) and
passes the liveness check, `ensureAccessToken` performs zero refresh calls,
returns the very same credential and account row, and its only store
mutation is the `last_used` update. -/
theorem ensureAccessToken_fast_path (env : Env) (row : AccountRow) (tok : String)
    (htok : row.access_token = some tok) (hne : tok ≠ "")
    (hlive : testDropboxToken env.provider tok = true) :
    ensureAccessToken env row =
      (.ok ⟨row, tok⟩, ⟨0, [StoreUpdate.lastUsed row.id env.now]⟩) := by
  simp [ensureAccessToken, htok, truthy, hne, hlive]

/-- Witness for C4: the live sample account. -/
theorem ensureAccessToken_fast_path_witness :
    ensureAccessToken envLive acct1 =
      (.ok ⟨acct1, "T1"⟩, ⟨0, [StoreUpdate.lastUsed 7 50]⟩) :=
  ensureAccessToken_fast_path envLive acct1 "T1" rfl (by decide) (by decide)

/-- C3: for an account whose access credential is absent/untruthy or fails
the liveness check, with a truthy refresh credential and resolved client
key/secret (account value first, env default second), `ensureAccessToken`
performs exactly one refresh call and issues exactly one store write
persisting the new access token together with the `last_used` update. -/
theorem ensureAccessToken_refresh_path (env : Env) (row : AccountRow) (newTok : String)
    (hdead : truthy row.access_token = false ∨
      testDropboxToken env.provider (row.access_token.getD "") = false)
    (hrt : truthy row.refresh_token = true)
    (hcid : truthy (jsOr row.app_key env.envClientId) = true)
    (hcsec : truthy (jsOr row.app_secret env.envClientSecret) = true)
    (hrefresh : env.refreshOutcome (row.refresh_token.getD "")
        ((jsOr row.app_key env.envClientId).getD "")
        ((jsOr row.app_secret env.envClientSecret).getD "") = .ok newTok) :
    (ensureAccessToken env row).2 =
      ⟨1, [StoreUpdate.tokenAndLastUsed row.id newTok env.now]⟩ := by
  have hcond : (truthy row.access_token &&
      testDropboxToken env.provider (row.access_token.getD "")) = false := by
    rcases hdead with h | h <;> simp [h]
  simp only [ensureAccessToken, hcond, hrt, hcid, hcsec, hrefresh,
    refreshDropboxAccessToken, Bool.false_eq_true, if_false, Bool.not_true,
    Bool.false_or, Bool.or_self]
  cases env.updateTokenError <;> rfl

/-- Witness for C3: the expired sample account refreshes once and persists
`"NEWTOK2"`. -/
theorem ensureAccessToken_refresh_path_witness :
    (ensureAccessToken envExpired acctExpired).2 =
      ⟨1, [StoreUpdate.tokenAndLastUsed 8 "NEWTOK2" 60]⟩ :=
  ensureAccessToken_refresh_path envExpired acctExpired "NEWTOK2"
    (Or.inr (by decide)) (by decide) (by decide) (by decide) rfl

/-- C1 (counterexample to the claim as stated): with a successful refresh
(`"NEWTOK2"`) but a failing store write, `ensureAccessToken` throws the
persist error — the result is the `PersistFailed`-style error alone, so the
new credential is NOT returned to the caller in memory. -/
theorem ensureAccessToken_persist_failure_counterexample :
    ensureAccessToken envPersistFail acctExpired =
      (.error "Failed to update refreshed access token in DB: boom",
       ⟨1, [StoreUpdate.tokenAndLastUsed 8 "NEWTOK2" 60]⟩) ∧
    (ensureAccessToken envPersistFail acctExpired).1.isOk = false :=
  ⟨by decide, by decide⟩

/-- C1 (amended): if the refresh succeeds but the store write persisting the
new credential fails, `ensureAccessToken` fails with the persist error and
does NOT return the new credential — the thrown error carries only the
message, so the freshly minted token is lost to the caller. -/
theorem ensureAccessToken_persist_failure (env : Env) (row : AccountRow)
    (newTok e : String)
    (hdead : truthy row.access_token = false ∨
      testDropboxToken env.provider (row.access_token.getD "") = false)
    (hrt : truthy row.refresh_token = true)
    (hcid : truthy (jsOr row.app_key env.envClientId) = true)
    (hcsec : truthy (jsOr row.app_secret env.envClientSecret) = true)
    (hrefresh : env.refreshOutcome (row.refresh_token.getD "")
        ((jsOr row.app_key env.envClientId).getD "")
        ((jsOr row.app_secret env.envClientSecret).getD "") = .ok newTok)
    (hupd : env.updateTokenError = some e) :
    ensureAccessToken env row =
      (.error ("Failed to update refreshed access token in DB: " ++ e),
       ⟨1, [StoreUpdate.tokenAndLastUsed row.id newTok env.now]⟩) := by
  have hcond : (truthy row.access_token &&
      testDropboxToken env.provider (row.access_token.getD "")) = false := by
    rcases hdead with h | h <;> simp [h]
  simp [ensureAccessToken, hcond, hrt, hcid, hcsec, hrefresh,
    refreshDropboxAccessToken, hupd]

/-- Witness for the amended C1. -/
theorem ensureAccessToken_persist_failure_witness :
    ensureAccessToken envPersistFail acctExpired =
      (.error "Failed to update refreshed access token in DB: boom",
       ⟨1, [StoreUpdate.tokenAndLastUsed 8 "NEWTOK2" 60]⟩) :=
  ensureAccessToken_persist_failure envPersistFail acctExpired "NEWTOK2" "boom"
    (Or.inr (by decide)) (by decide) (by decide) (by decide) rfl rfl

/-- C9: when the create-shared-link call fails (e.g. the link already
exists), `createSharedLinkDirect` falls back to the listing call: a
non-empty link list yields the first listed link normalized to
direct-download form (host rewritten, `?dl=0` removed) instead of an
error, while an empty link list makes the function raise instead of
returning a URL. -/
theorem createSharedLinkDirect_fallback (ce url : String) (rest : List String) :
    createSharedLinkDirect (.error ce) (.ok (url :: rest)) = .ok (normalizeDirect url) ∧
    ∃ msg, createSharedLinkDirect (.error ce) (.ok ([] : List String)) = .error msg :=
  ⟨rfl, ⟨_, rfl⟩⟩

/-- Witness for C9: an existing link is returned normalized (host
rewritten, `?dl=0` stripped); an empty listing raises. -/
theorem createSharedLinkDirect_fallback_witness :
    createSharedLinkDirect (.error "shared_link_already_exists")
        (.ok ["https://www.dropbox.com/s/a/x.pdf?dl=0"]) =
      .ok "https://dl.dropboxusercontent.com/s/a/x.pdf" ∧
    ∃ msg, createSharedLinkDirect (.error "shared_link_already_exists")
        (.ok ([] : List String)) = .error msg :=
  ⟨(createSharedLinkDirect_fallback "shared_link_already_exists"
      "https://www.dropbox.com/s/a/x.pdf?dl=0" []).1.trans (by decide),
   (createSharedLinkDirect_fallback "shared_link_already_exists"
      "https://www.dropbox.com/s/a/x.pdf?dl=0" []).2⟩

theorem mem_insertByLastUsed {x a : AccountRow} {l : List AccountRow} :
    x ∈ insertByLastUsed a l ↔ x = a ∨ x ∈ l := by
  induction l with
  | nil => simp [insertByLastUsed]
  | cons b rest ih =>
    simp only [insertByLastUsed]
    split
    · simp [List.mem_cons]
    · simp only [List.mem_cons, ih]
      tauto

theorem mem_sortByLastUsed {x : AccountRow} {l : List AccountRow} :
    x ∈ sortByLastUsed l ↔ x ∈ l := by
  induction l with
  | nil => simp [sortByLastUsed]
  | cons a rest ih =>
    simp only [sortByLastUsed, mem_insertByLastUsed, List.mem_cons, ih]

theorem pairwise_insertByLastUsed {a : AccountRow} {l : List AccountRow}
    (h : l.Pairwise (fun r s => r.last_used ≤ s.last_used)) :
    (insertByLastUsed a l).Pairwise (fun r s => r.last_used ≤ s.last_used) := by
  induction l with
  | nil => simp [insertByLastUsed]
  | cons b rest ih =>
    rcases List.pairwise_cons.1 h with ⟨hb, hrest⟩
    simp only [insertByLastUsed]
    split
    · rename_i hle
      refine List.pairwise_cons.2 ⟨?_, h⟩
      intro x hx
      rcases List.mem_cons.1 hx with rfl | hx
      · exact hle
      · exact le_trans hle (hb x hx)
    · rename_i hgt
      refine List.pairwise_cons.2 ⟨?_, ih hrest⟩
      intro x hx
      rcases mem_insertByLastUsed.1 hx with rfl | hx
      · exact le_of_not_le hgt
      · exact hb x hx

theorem pairwise_sortByLastUsed (l : List AccountRow) :
    (sortByLastUsed l).Pairwise (fun r s => r.last_used ≤ s.last_used) := by
  induction l with
  | nil => simp [sortByLastUsed]
  | cons a rest ih => exact pairwise_insertByLastUsed ih

/-- C7: `selectDropboxAccount` returns a stored account that satisfies the
quota filter whenever a positive ceiling is configured (accounts with
`bytes_used ≥ ceiling` are excluded; with no ceiling every account is
eligible) and that has minimal `last_used` among all eligible accounts
(first by ascending order); and when the filtered set is empty it fails
with the no-account error. It is read-only — its type issues no store
writes. -/
theorem selectDropboxAccount_spec (m : Nat) (rows : List AccountRow) :
    (∀ a, selectDropboxAccount m rows = .ok a →
      a ∈ rows ∧ (m > 0 → a.bytes_used < m) ∧
      ∀ b ∈ rows, (m > 0 → b.bytes_used < m) → a.last_used ≤ b.last_used) ∧
    ((if m > 0 then rows.filter (fun r => r.bytes_used < m) else rows) = [] →
      selectDropboxAccount m rows = .error "No suitable Dropbox account found") := by
  set filtered : List AccountRow :=
    if m > 0 then rows.filter (fun r => r.bytes_used < m) else rows with hf
  have hmemf : ∀ x : AccountRow, x ∈ filtered → x ∈ rows ∧ (m > 0 → x.bytes_used < m) := by
    intro x hx
    rw [hf] at hx
    by_cases hm : m > 0
    · rw [if_pos hm] at hx
      rcases List.mem_filter.1 hx with ⟨hmem, hdec⟩
      exact ⟨hmem, fun _ => by simpa using hdec⟩
    · rw [if_neg hm] at hx
      exact ⟨hx, fun h => absurd h hm⟩
  have hmemf' : ∀ x : AccountRow, x ∈ rows → (m > 0 → x.bytes_used < m) → x ∈ filtered := by
    intro x hx hq
    rw [hf]
    by_cases hm : m > 0
    · rw [if_pos hm]
      exact List.mem_filter.2 ⟨hx, by simpa using hq hm⟩
    · rw [if_neg hm]; exact hx
  have hsel : selectDropboxAccount m rows =
      match sortByLastUsed filtered with
      | [] => .error "No suitable Dropbox account found"
      | a :: _ => .ok a := by
    rw [selectDropboxAccount, hf]
  constructor
  · intro a ha
    rw [hsel] at ha
    cases hsort : sortByLastUsed filtered with
    | nil => rw [hsort] at ha; exact absurd ha (by simp)
    | cons a0 rest =>
      rw [hsort] at ha
      have haa0 : a = a0 := by
        have := ha
        simp only [Except.ok.injEq] at this
        exact this.symm
      subst haa0
      have hainf : a ∈ filtered := mem_sortByLastUsed.1 (hsort ▸ List.mem_cons_self a rest)
      refine ⟨(hmemf a hainf).1, (hmemf a hainf).2, ?_⟩
      intro b hb hbq
      have hbf : b ∈ filtered := hmemf' b hb hbq
      have hbs : b ∈ sortByLastUsed filtered := mem_sortByLastUsed.2 hbf
      rw [hsort] at hbs
      rcases List.mem_cons.1 hbs with rfl | hbs
      · exact le_refl _
      · have hp := pairwise_sortByLastUsed filtered
        rw [hsort] at hp
        exact (List.pairwise_cons.1 hp).1 b hbs
  · intro hempty
    rw [hsel, hempty]
    rfl

/-- Witness for C7 at a concrete store: with ceiling 5, the over-quota
account (9 MB) is skipped and the eligible account is returned even though
it was used more recently; its quota bound holds. -/
theorem selectDropboxAccount_spec_witness :
    (⟨2, none, none, none, none, 3, 8⟩ : AccountRow) ∈
      [(⟨1, none, none, none, none, 9, 1⟩ : AccountRow), ⟨2, none, none, none, none, 3, 8⟩] ∧
    ((5:Nat) > 0 → (3:Nat) < 5) := by
  have h := (selectDropboxAccount_spec 5
    [(⟨1, none, none, none, none, 9, 1⟩ : AccountRow), ⟨2, none, none, none, none, 3, 8⟩]).1
    ⟨2, none, none, none, none, 3, 8⟩ (by decide)
  exact ⟨h.1, h.2.1⟩

/-- C6: a job with `attempts ≥ 3` is rejected with "Max retries reached"
before any download or upload I/O, the transition to `failed` being the
only mutation (no attempts write, no record insert, no blob removal);
a job with `attempts < 3` gets exactly one attempts write, to
`attempts + 1`, and every final job row carries that value — hence starting
from `attempts ≤ 3` the counter never exceeds 3. -/
theorem processMaterial_attempts (penv : ProcEnv) (material : Material) :
    (material.attempts ≥ 3 →
      processMaterial penv (some material) =
        { status := 400, errMsg := some "Max retries reached",
          job := some ({ material with
                         processing_status := "failed",
                         processing_error := some "Max retries reached" }),
          fileRecords := [], removedBlobs := [], uploadCalls := [], sharedLinkCalls := [],
          accountFetches := [], refreshCalls := 0, downloadCalls := [],
          bytesIncrements := [], attemptsWrites := [] }) ∧
    (material.attempts < 3 →
      (processMaterial penv (some material)).attemptsWrites = [material.attempts + 1] ∧
      ∀ j, (processMaterial penv (some material)).job = some j →
        j.attempts = material.attempts + 1) ∧
    (material.attempts ≤ 3 →
      ∀ j, (processMaterial penv (some material)).job = some j → j.attempts ≤ 3) := by
  have hrej : material.attempts ≥ 3 →
      processMaterial penv (some material) =
        { status := 400, errMsg := some "Max retries reached",
          job := some ({ material with
                         processing_status := "failed",
                         processing_error := some "Max retries reached" }),
          fileRecords := [], removedBlobs := [], uploadCalls := [], sharedLinkCalls := [],
          accountFetches := [], refreshCalls := 0, downloadCalls := [],
          bytesIncrements := [], attemptsWrites := [] } := by
    intro h
    simp only [processMaterial]
    rw [if_pos h]
  have hinc : material.attempts < 3 →
      (processMaterial penv (some material)).attemptsWrites = [material.attempts + 1] ∧
      ∀ j, (processMaterial penv (some material)).job = some j →
        j.attempts = material.attempts + 1 := by
    intro hlt
    simp only [processMaterial, afterUpload]
    rw [if_neg (by omega)]
    repeat' split
    all_goals simp [jobFailed]
  refine ⟨hrej, hinc, ?_⟩
  intro hle j hj
  by_cases h3 : material.attempts ≥ 3
  · rw [hrej h3] at hj
    simp only [Option.some.injEq] at hj
    subst hj
    simpa using hle
  · have := (hinc (by omega)).2 j hj
    omega

/-- Witness for C6: the sample job at `attempts = 3` is rejected with no
I/O and the sample job at `attempts = 0` gets exactly one attempts write. -/
theorem processMaterial_attempts_witness :
    processMaterial penvHappy (some { matAbc with attempts := 3 }) =
      { status := 400, errMsg := some "Max retries reached",
        job := some ({ { matAbc with attempts := 3 } with
                       processing_status := "failed",
                       processing_error := some "Max retries reached" }),
        fileRecords := [], removedBlobs := [], uploadCalls := [], sharedLinkCalls := [],
        accountFetches := [], refreshCalls := 0, downloadCalls := [],
        bytesIncrements := [], attemptsWrites := [] } ∧
    (processMaterial penvHappy (some matAbc)).attemptsWrites = [1] :=
  ⟨(processMaterial_attempts penvHappy { matAbc with attempts := 3 }).1 (by decide),
   ((processMaterial_attempts penvHappy matAbc).2.1 (by decide)).1⟩

/-- C2 (amended): on a fully successful run starting from `attempts < 3`,
the job ends with `attempts + 1`, status `"done"`, `processed_url` equal to
the shared-link URL with its first `"?dl=0"` replaced by `"?dl=1"` (the
provider host is left as returned — NOT rewritten), the source blob is
removed from storage, and exactly one `file_records` row is inserted. -/
theorem processMaterial_success (penv : ProcEnv) (material : Material)
    (t1 : String) (accId : Nat) (tr1 : Trace) (nb : Nat) (pl rawUrl : String)
    (hlt : material.attempts < 3)
    (hdl : penv.download material.storage_path = .ok nb)
    (htok : getDropboxTokenFromDB penv.maxBytesMB penv.accounts penv.env1 =
      (.ok (t1, accId), tr1))
    (hup0 : penv.upload 0 t1 (dropboxPathFor penv.nowTs material.storage_path) = .ok pl)
    (hsl : penv.sharedLink t1 pl = .ok rawUrl) :
    processMaterial penv (some material) =
      { status := 200, errMsg := none,
        job := some ({ material with
                       attempts := material.attempts + 1,
                       processing_status := "done", processing_error := none,
                       processed_url := some (replaceFirst rawUrl "?dl=0" "?dl=1"),
                       file_url := some (replaceFirst rawUrl "?dl=0" "?dl=1"),
                       approval_status := "approved" }),
        fileRecords := [⟨material.id, dropboxPathFor penv.nowTs material.storage_path,
          replaceFirst rawUrl "?dl=0" "?dl=1", penv.nowTs⟩],
        removedBlobs := [material.storage_path],
        uploadCalls := [(t1, dropboxPathFor penv.nowTs material.storage_path)],
        sharedLinkCalls := [(t1, pl)],
        accountFetches := [], refreshCalls := tr1.refreshCalls,
        downloadCalls := [material.storage_path],
        bytesIncrements := [(accId, nb)],
        attemptsWrites := [material.attempts + 1] } := by
  simp only [processMaterial, afterUpload]
  rw [if_neg (by omega)]
  simp only [hdl, htok, hup0, hsl]

/-- Witness for the amended C2: the spec's end-to-end sample. -/
theorem processMaterial_success_witness :
    processMaterial penvHappy (some matAbc) =
      { status := 200, errMsg := none,
        job := some ⟨"abc", "materials/x.pdf", 1, "done", none,
          some "https://www.dropbox.com/s/a/x.pdf?dl=1",
          some "https://www.dropbox.com/s/a/x.pdf?dl=1", "approved"⟩,
        fileRecords := [⟨"abc", "/campus-files/1000_x.pdf",
          "https://www.dropbox.com/s/a/x.pdf?dl=1", 1000⟩],
        removedBlobs := ["materials/x.pdf"],
        uploadCalls := [("T1", "/campus-files/1000_x.pdf")],
        sharedLinkCalls := [("T1", "/campus-files/1000_x.pdf")],
        accountFetches := [], refreshCalls := 0,
        downloadCalls := ["materials/x.pdf"],
        bytesIncrements := [(7, 100)], attemptsWrites := [1] } :=
  processMaterial_success penvHappy matAbc "T1" 7 ⟨0, [StoreUpdate.lastUsed 7 50]⟩
    100 "/campus-files/1000_x.pdf" "https://www.dropbox.com/s/a/x.pdf?dl=0"
    (by decide) rfl (by decide) rfl rfl

/-- C2 (counterexample to the claim as stated): on the spec's own
end-to-end sample, `processed_url` becomes
`"https://www.dropbox.com/s/a/x.pdf?dl=1"` — the `"?dl=0"` suffix is
replaced by `"?dl=1"`, but the provider host is NOT rewritten for inline
download: the rewritten host `dl.dropboxusercontent.com` does not occur in
it and the original host `www.dropbox.com` still does. -/
theorem processMaterial_hostRewrite_counterexample :
    (processMaterial penvHappy (some matAbc)).job =
      some ⟨"abc", "materials/x.pdf", 1, "done", none,
        some "https://www.dropbox.com/s/a/x.pdf?dl=1",
        some "https://www.dropbox.com/s/a/x.pdf?dl=1", "approved"⟩ ∧
    containsSubstr "https://www.dropbox.com/s/a/x.pdf?dl=1" "dl.dropboxusercontent.com" = false ∧
    containsSubstr "https://www.dropbox.com/s/a/x.pdf?dl=1" "www.dropbox.com" = true :=
  ⟨by decide, by decide, by decide⟩

/-- C5: when the first upload attempt fails, the handler re-fetches the
same account row by id, re-runs `ensureAccessToken` on it, and retries the
upload exactly once with the credential that re-run returned; when the
retry also fails its error propagates — the job transitions to `failed`
with that error, the response is 500, and no further upload call is made. -/
theorem processMaterial_upload_retry (penv : ProcEnv) (material : Material)
    (t1 : String) (accId : Nat) (tr1 : Trace) (row2 : AccountRow)
    (r2 : EnsureResult) (tr2 : Trace) (nb : Nat) (e0 e1 : String)
    (hlt : material.attempts < 3)
    (hdl : penv.download material.storage_path = .ok nb)
    (htok : getDropboxTokenFromDB penv.maxBytesMB penv.accounts penv.env1 =
      (.ok (t1, accId), tr1))
    (hup0 : penv.upload 0 t1 (dropboxPathFor penv.nowTs material.storage_path) = .error e0)
    (hfetch : penv.fetchAccountById accId = some row2)
    (hens : ensureAccessToken penv.env2 row2 = (.ok r2, tr2))
    (hup1 : penv.upload 1 r2.accessToken (dropboxPathFor penv.nowTs material.storage_path) =
      .error e1) :
    processMaterial penv (some material) =
      { status := 500, errMsg := some e1,
        job := some (jobFailed ({ material with
                       attempts := material.attempts + 1,
                       processing_status := "processing",
                       processing_error := none }) e1),
        fileRecords := [], removedBlobs := [],
        uploadCalls := [(t1, dropboxPathFor penv.nowTs material.storage_path),
          (r2.accessToken, dropboxPathFor penv.nowTs material.storage_path)],
        sharedLinkCalls := [], accountFetches := [accId],
        refreshCalls := tr1.refreshCalls + tr2.refreshCalls,
        downloadCalls := [material.storage_path], bytesIncrements := [],
        attemptsWrites := [material.attempts + 1] } := by
  simp only [processMaterial, afterUpload]
  rw [if_neg (by omega)]
  simp only [hdl, htok, hup0, hfetch, hens, hup1]

/-- Witness for C5: first upload fails with `"E0"`, the refreshed retry
fails with `"E1"`; exactly two upload calls happen, the second with the
refreshed token, and the job is failed with `"E1"`. -/
theorem processMaterial_upload_retry_witness :
    processMaterial penvRetryFail (some matAbc) =
      { status := 500, errMsg := some "E1",
        job := some ⟨"abc", "materials/x.pdf", 1, "failed", some "E1",
          none, none, "pending"⟩,
        fileRecords := [], removedBlobs := [],
        uploadCalls := [("T1", "/campus-files/1000_x.pdf"),
          ("NEWTOK2", "/campus-files/1000_x.pdf")],
        sharedLinkCalls := [], accountFetches := [7],
        refreshCalls := 1,
        downloadCalls := ["materials/x.pdf"], bytesIncrements := [],
        attemptsWrites := [1] } :=
  processMaterial_upload_retry penvRetryFail matAbc "T1" 7
    ⟨0, [StoreUpdate.lastUsed 7 50]⟩ acctExpired
    ⟨{ acctExpired with access_token := some "NEWTOK2" }, "NEWTOK2"⟩
    ⟨1, [StoreUpdate.tokenAndLastUsed 8 "NEWTOK2" 60]⟩ 100 "E0" "E1"
    (by decide) rfl (by decide) (by decide) rfl (by decide) (by decide)

/-- C8: when the first upload fails and the retry with the re-ensured
credential succeeds, the shared-link creation call is still issued with
the ORIGINAL pre-retry access credential `t1`, not the refreshed one. -/
theorem processMaterial_sharedLink_original_token (penv : ProcEnv) (material : Material)
    (t1 : String) (accId : Nat) (tr1 : Trace) (row2 : AccountRow)
    (r2 : EnsureResult) (tr2 : Trace) (nb : Nat) (e0 pl : String)
    (hlt : material.attempts < 3)
    (hdl : penv.download material.storage_path = .ok nb)
    (htok : getDropboxTokenFromDB penv.maxBytesMB penv.accounts penv.env1 =
      (.ok (t1, accId), tr1))
    (hup0 : penv.upload 0 t1 (dropboxPathFor penv.nowTs material.storage_path) = .error e0)
    (hfetch : penv.fetchAccountById accId = some row2)
    (hens : ensureAccessToken penv.env2 row2 = (.ok r2, tr2))
    (hup1 : penv.upload 1 r2.accessToken (dropboxPathFor penv.nowTs material.storage_path) =
      .ok pl)
    (hne : r2.accessToken ≠ t1) :
    (processMaterial penv (some material)).sharedLinkCalls = [(t1, pl)] ∧
    t1 ≠ r2.accessToken := by
  refine ⟨?_, fun h => hne h.symm⟩
  simp only [processMaterial, afterUpload]
  rw [if_neg (by omega)]
  simp only [hdl, htok, hup0, hfetch, hens, hup1]
  cases hsl : penv.sharedLink t1 pl <;> simp

/-- Witness for C8: the retry succeeds with the refreshed token
`"NEWTOK2"` but the shared-link call is made with the original `"T1"`. -/
theorem processMaterial_sharedLink_original_token_witness :
    (processMaterial penvRetryOk (some matAbc)).sharedLinkCalls =
      [("T1", "/campus-files/pl")] ∧ "T1" ≠ "NEWTOK2" :=
  processMaterial_sharedLink_original_token penvRetryOk matAbc "T1" 7
    ⟨0, [StoreUpdate.lastUsed 7 50]⟩ acctExpired
    ⟨{ acctExpired with access_token := some "NEWTOK2" }, "NEWTOK2"⟩
    ⟨1, [StoreUpdate.tokenAndLastUsed 8 "NEWTOK2" 60]⟩ 100 "E0" "/campus-files/pl"
    (by decide) rfl (by decide) (by decide) rfl (by decide) (by decide) (by decide)

end Campus

